import Mathlib

/-!
Shallow embedding of the geomag-plots timeseries application core: the
time window resolver and data sync controller of
src/htdocs/js/TimeseriesApp.js, and the selection and custom range
validation logic of TimeseriesSelectView.

Dates are modelled as integer epoch milliseconds (UTC). JavaScript
date arithmetic at minute granularity and above is exact floor
arithmetic on epoch milliseconds, because UTC days on the JavaScript
time scale are exactly 86400000 ms. JavaScript division under
Math.floor is Int.fdiv; division and remainder by the positive
constants below coincide with the Lean Int operations / and %.
-/

namespace GeomagPlots

/-- Milliseconds per minute. -/
def msPerMinute : Int := 60000

/-- Milliseconds per hour. -/
def msPerHour : Int := 3600000

/-- Epoch milliseconds of the start of the UTC hour containing t: the
reassembly Date.UTC(y, m, d, h) of the getUTC components of t. -/
def hourStart (t : Int) : Int := msPerHour * (t / msPerHour)

/-- JavaScript dt.getUTCMinutes() for epoch milliseconds t. -/
def getUTCMinutes (t : Int) : Int := (t / msPerMinute) % 60

/-- Epoch milliseconds of t truncated to a whole minute. -/
def truncToMinute (t : Int) : Int := msPerMinute * (t / msPerMinute)

/-- Embedding of __roundUpToNearestNMinutes (TimeseriesApp.js lines
29-40): decompose dt into UTC components, replace the minutes field i
by n * Math.floor((i + n) / n), and rebuild the date with Date.UTC,
which drops seconds and milliseconds and normalises an overflowing
minutes field into the following hours. The JavaScript default
n = n || 5 applies when n is 0. -/
def __roundUpToNearestNMinutes (dt : Int) (n : Int) : Int :=
  let n := if n = 0 then 5 else n
  let i := n * Int.fdiv (getUTCMinutes dt + n) n
  hourStart dt + i * msPerMinute

/-- Configuration model of TimeseriesApp. Times are epoch ms; a null
field is none. -/
structure Config where
  channel : Option String
  observatory : Option String
  timemode : String
  starttime : Option Int
  endtime : Option Int
  deriving DecidableEq

/-- Defaults merged into the configuration model at startup
(TimeseriesApp._initialize lines 126-132): channel H, no observatory,
timemode pasthour, null start and end times. -/
def initialConfigDefaults : Config :=
  { channel := some "H", observatory := none, timemode := "pasthour",
    starttime := none, endtime := none }

/-- Resolved time window of one sync cycle: start and end epoch ms and
the auto update delay, some 300000 for the live modes and none
otherwise. -/
structure Window where
  starttime : Int
  endtime : Int
  autoUpdateTime : Option Int
  deriving DecidableEq

/-- Embedding of the window computation of _onConfigChange
(TimeseriesApp.js lines 200-217). In the branch for timemodes other
than realtime and pastday the code calls getTime() on the configured
starttime and endtime; when either is null that call throws, modelled
as none (no window is produced). -/
def resolveWindow (c : Config) (now : Int) : Option Window :=
  if c.timemode = "realtime" then
    let e := __roundUpToNearestNMinutes now 1
    some { starttime := e - 900000, endtime := e, autoUpdateTime := some 300000 }
  else if c.timemode = "pastday" then
    let e := __roundUpToNearestNMinutes now 5
    some { starttime := e - 86400000, endtime := e, autoUpdateTime := some 300000 }
  else
    match c.endtime, c.starttime with
    | some e, some s => some { starttime := s, endtime := e, autoUpdateTime := none }
    | _, _ => none

/-- Observatory reference entry supplied by ObservatoryFactory: id
code plus name and coordinates. -/
structure Observatory where
  id : String
  name : String
  latitude : Int
  longitude : Int
  deriving DecidableEq

/-- Metadata carried by one timeseries record. name, latitude and
longitude are absent (none) until the merge step copies them from the
observatories collection. -/
structure Metadata where
  observatory : String
  name : Option String
  latitude : Option Int
  longitude : Option Int
  deriving DecidableEq

/-- One timeseries record of a webservice response. -/
structure Timeseries where
  channel : String
  metadata : Metadata
  deriving DecidableEq

/-- Metadata merge of _onTimeseriesLoad (lines 261-271): look the
observatory code of the record up in the observatories collection and,
when found, copy name, latitude and longitude into the metadata. -/
def mergeMetadata (obs : List Observatory) (t : Timeseries) : Timeseries :=
  match obs.find? (fun o => o.id = t.metadata.observatory) with
  | some o =>
      { t with metadata := { t.metadata with
          name := some o.name, latitude := some o.latitude,
          longitude := some o.longitude } }
  | none => t

/-- JavaScript truthiness of a possibly absent numeric latitude:
undefined and 0 are falsy, every other number is truthy. -/
def latTruthy : Option Int → Bool
  | none => false
  | some v => v != 0

/-- JavaScript string comparison, lexicographic on code units. -/
def charListLt : List Char → List Char → Bool
  | [], [] => false
  | [], _ :: _ => true
  | _ :: _, [] => false
  | a :: as, b :: bs => if a < b then true else if b < a then false else charListLt as bs

/-- JavaScript a < b on strings. -/
def jsStrLt (a b : String) : Bool := charListLt a.data b.data

/-- Sort comparator of _onTimeseriesLoad (lines 273-293): when both
latitude keys are truthy (the JavaScript test aKey && bKey), return
bKey - aKey (descending latitude); otherwise compare observatory codes
ascending, returning -1, 1 or 0. -/
def timeseriesCompare (a b : Timeseries) : Int :=
  let aMeta := a.metadata
  let bMeta := b.metadata
  if latTruthy aMeta.latitude && latTruthy bMeta.latitude then
    bMeta.latitude.getD 0 - aMeta.latitude.getD 0
  else if jsStrLt aMeta.observatory bMeta.observatory then -1
  else if jsStrLt bMeta.observatory aMeta.observatory then 1
  else 0

/-- Insert one record into a list ordered by the comparator. -/
def insertByCompare (x : Timeseries) : List Timeseries → List Timeseries
  | [] => [x]
  | y :: ys =>
      if timeseriesCompare x y < 0 then x :: y :: ys
      else y :: insertByCompare x ys

/-- Comparator sort applied to the response records. -/
def sortTimeseries (l : List Timeseries) : List Timeseries :=
  l.foldr insertByCompare []

/-- Arguments of the getTimeseries fetch issued by _onConfigChange
(lines 227-236). -/
structure FetchRequest where
  channel : Option String
  observatory : Option String
  channels : Option (List String)
  starttime : Int
  endtime : Int
  seconds : Bool
  deriving DecidableEq

/-- Observable state of one TimeseriesApp instance: current
configuration, the channels option, the observatories collection, the
loading css state, the published timeseries collection, the armed auto
update timeout, and the outstanding fetches keyed by issue order (the
code keeps one callback closure per issued fetch; the id records which
issued fetch a completion belongs to). -/
structure AppState where
  config : Config
  channels : List String
  observatories : List Observatory
  loading : Bool
  published : List Timeseries
  timer : Option Int
  pending : List (Nat × FetchRequest)
  nextId : Nat
  deriving DecidableEq

/-- Embedding of _onConfigChange (lines 177-242): cancel the armed
timeout, resolve the window from the current configuration, and, when
resolution succeeds, set the loading state, issue one fetch request
and arm the auto update timeout for the live modes. When resolution
throws (a null time in the custom branch) the handler aborts after the
cancel, before the loading state is set and before any fetch. -/
def _onConfigChange (s : AppState) (now : Int) : AppState :=
  let s := { s with timer := none }
  match resolveWindow s.config now with
  | none => s
  | some w =>
      let seconds := decide (w.endtime - w.starttime ≤ 1800000)
      let channels := if s.config.observatory ≠ none then some s.channels else none
      let req : FetchRequest :=
        { channel := s.config.channel, observatory := s.config.observatory,
          channels := channels, starttime := w.starttime, endtime := w.endtime,
          seconds := seconds }
      { s with loading := true,
               pending := s.pending ++ [(s.nextId, req)],
               nextId := s.nextId + 1,
               timer := w.autoUpdateTime }

/-- Published collection produced by _onTimeseriesLoad from a
response: metadata merge followed by the comparator sort. -/
def processResponse (obs : List Observatory) (records : List Timeseries) :
    List Timeseries :=
  sortTimeseries (records.map (mergeMetadata obs))

/-- Events driving one controller instance: a configuration change
(the model replaces its fields, then _onConfigChange runs) and the
completion, successful or failed, of the outstanding fetch with the
given id. -/
inductive AppEvent
  | configChange (c : Config) (now : Int)
  | fetchSuccess (id : Nat) (records : List Timeseries)
  | fetchFail (id : Nat)

/-- One event step of the controller. fetchSuccess runs
_onTimeseriesLoad (lines 258-299): merge, sort, reset the published
collection and clear loading, with no staleness check on the id.
fetchFail runs _onTimeseriesError (lines 247-250): clear loading and
reset the published collection to empty, leaving the timer untouched.
Completions whose id is not outstanding never occur (each issued fetch
calls back exactly once) and are ignored. -/
def step (s : AppState) (ev : AppEvent) : AppState :=
  match ev with
  | .configChange c now => _onConfigChange { s with config := c } now
  | .fetchSuccess id records =>
      if (s.pending.map Prod.fst).contains id then
        { s with pending := s.pending.filter (fun p => p.1 ≠ id),
                 published := processResponse s.observatories records,
                 loading := false }
      else s
  | .fetchFail id =>
      if (s.pending.map Prod.fst).contains id then
        { s with pending := s.pending.filter (fun p => p.1 ≠ id),
                 published := [],
                 loading := false }
      else s

/-- Run a sequence of events from a starting state. -/
def runTrace (s : AppState) (evs : List AppEvent) : AppState :=
  evs.foldl step s

/-- Result of _parseDate as seen by the _validateTime check
(part_000 lines 236-243 and 295-303): null for an empty input, invalid
for an unparsable one (a NaN date), valid t for a date of epoch ms t. -/
inductive ParsedDate
  | nullDate
  | invalidDate
  | valid (t : Int)
  deriving DecidableEq

/-- Embedding of _validateTime (part_000 lines 295-303). -/
def _validateTime : ParsedDate → Bool
  | .valid _ => true
  | _ => false

/-- Message set by _validateTime on failure. -/
def validTimeError : String := "Please enter a valid time."

/-- Message set by _timeOrder on failure (part_000 line 278). -/
def orderError : String := "Start Time must come before End Time."

/-- Message set by _validateRange on failure (part_000 line 317). -/
def rangeError : String := "Please select less than 1 month of data."

/-- Custom time submission path of _onTimeChange (part_000 lines
201-213) with its validator chain _validateTime(startTime) &&
_validateTime(endTime) && _timeOrder(start, end) &&
_validateRange(start, end). The first failing check sets the single
error message and short circuits; when all pass the error is cleared
and the new window is committed with timemode custom. _timeOrder
(lines 276-285) fails exactly when start > end; _validateRange (lines
315-323) fails exactly when end - start > 2678400000. Returns the
final error slot and the configuration. -/
def customTimeSubmit : ParsedDate → ParsedDate → Config → Option String × Config
  | .valid s, .valid e, c =>
      if s > e then (some orderError, c)
      else if e - s > 2678400000 then (some rangeError, c)
      else (none,
        { c with endtime := some e, starttime := some s, timemode := "custom" })
  | _, _, c => (some validTimeError, c)

/-- Inputs of one _onTimeChange event: which radio is checked, whether
the event target is the custom radio itself, and the parsed contents
of the two text fields. -/
structure TimeChangeEvent where
  customChecked : Bool
  realtimeChecked : Bool
  pastdayChecked : Bool
  targetIsCustomRadio : Bool
  startInput : ParsedDate
  endInput : ParsedDate

/-- Embedding of _onTimeChange (part_000 lines 190-226). err is the
error slot before the event; branches that run no validator leave it
untouched. -/
def _onTimeChange (ev : TimeChangeEvent) (err : Option String) (c : Config) :
    Option String × Config :=
  if ev.customChecked then
    if ev.targetIsCustomRadio then (err, c)
    else customTimeSubmit ev.startInput ev.endInput c
  else if ev.realtimeChecked then (err, { c with timemode := "realtime" })
  else if ev.pastdayChecked then (err, { c with timemode := "pastday" })
  else (err, c)

/-- Embedding of _onChannelClick (part_000 lines 162-171): when the
clicked element has a truthy data-id (non empty string), set that
channel and clear the observatory; otherwise nothing changes. -/
def _onChannelClick : Option String → Config → Config
  | some id, c =>
      if id ≠ "" then { c with channel := some id, observatory := none } else c
  | none, c => c

/-- Embedding of _onObservatoryClick (part_000 lines 176-185): when
the clicked element has a truthy data-id, set that observatory and
clear the channel; otherwise nothing changes. -/
def _onObservatoryClick : Option String → Config → Config
  | some id, c =>
      if id ≠ "" then { c with channel := none, observatory := some id } else c
  | none, c => c


/-- Starting state of a controller instance: given configuration, the
default channel set of _initialize, an empty observatories collection,
nothing loading, nothing published, no timer and no outstanding fetch. -/
def startState (c : Config) : AppState :=
  { config := c, channels := ["H", "E", "Z", "F"], observatories := [],
    loading := false, published := [], timer := none, pending := [], nextId := 0 }

/-- Configuration in realtime mode. -/
def realtimeConfig : Config :=
  { initialConfigDefaults with timemode := "realtime" }

/-- First custom window of the out of order completion scenario. -/
def customConfigA : Config :=
  { initialConfigDefaults with
      timemode := "custom", starttime := some 0, endtime := some 60000 }

/-- Second custom window of the out of order completion scenario. -/
def customConfigB : Config :=
  { initialConfigDefaults with
      timemode := "custom", starttime := some 120000, endtime := some 180000 }

/-- Response record of the first fetch of the scenario. -/
def recordA : Timeseries :=
  { channel := "H",
    metadata := { observatory := "AAA", name := none,
                  latitude := none, longitude := none } }

/-- Response record of the second fetch of the scenario. -/
def recordB : Timeseries :=
  { channel := "H",
    metadata := { observatory := "BBB", name := none,
                  latitude := none, longitude := none } }

/-- Event trace in which a second configuration change starts fetch 1
while fetch 0 is still outstanding, fetch 1 completes first, and the
stale completion of fetch 0 arrives last. -/
def staleTrace : List AppEvent :=
  [ .configChange customConfigA 0,
    .configChange customConfigB 0,
    .fetchSuccess 1 [recordB],
    .fetchSuccess 0 [recordA] ]

/-- Record with a defined latitude equal to 0 (an equatorial value),
falsy in JavaScript. -/
def latZeroRecord : Timeseries :=
  { channel := "H",
    metadata := { observatory := "AAA", name := none,
                  latitude := some 0, longitude := none } }

/-- Record with a defined nonzero latitude. -/
def latFortyRecord : Timeseries :=
  { channel := "H",
    metadata := { observatory := "ZZZ", name := none,
                  latitude := some 40, longitude := none } }

/-- Change event: the realtime radio was selected. -/
def realtimeRadioEvent : TimeChangeEvent :=
  { customChecked := false, realtimeChecked := true, pastdayChecked := false,
    targetIsCustomRadio := false, startInput := .nullDate, endInput := .nullDate }

/-- Change event: the pastday radio was selected. -/
def pastdayRadioEvent : TimeChangeEvent :=
  { customChecked := false, realtimeChecked := false, pastdayChecked := true,
    targetIsCustomRadio := false, startInput := .nullDate, endInput := .nullDate }

/-- Change event: the custom radio itself was selected (the handler
returns before reading or validating the text fields). -/
def customRadioEvent : TimeChangeEvent :=
  { customChecked := true, realtimeChecked := false, pastdayChecked := false,
    targetIsCustomRadio := true, startInput := .nullDate, endInput := .nullDate }

/-- Rounding with a positive n computes the minute count
n * (i / n + 1) past the hour start, where i is the minutes field. -/
theorem roundUp_formula (dt n : Int) (hn : 0 < n) :
    __roundUpToNearestNMinutes dt n =
      hourStart dt + n * (getUTCMinutes dt / n + 1) * msPerMinute := by
  have hn0 : n ≠ 0 := by omega
  simp only [__roundUpToNearestNMinutes, if_neg hn0]
  rw [Int.fdiv_eq_ediv _ (le_of_lt hn)]
  rw [show getUTCMinutes dt + n = getUTCMinutes dt + 1 * n by ring,
    Int.add_mul_ediv_right _ _ hn0]

/-- Truncation to a whole minute splits into the hour start plus the
minutes field. -/
theorem truncToMinute_decomp (t : Int) :
    truncToMinute t = hourStart t + getUTCMinutes t * msPerMinute := by
  simp only [truncToMinute, hourStart, getUTCMinutes, msPerMinute, msPerHour]
  omega

/-- Arithmetic of the next multiple: for 0 < n, n * (i / n + 1) is a
multiple of n strictly above i, at most i + n, least among multiples
of n strictly above i, and equal to i + n when n divides i. -/
theorem nextMultiple_bounds (i n : Int) (hn : 0 < n) :
    i < n * (i / n + 1) ∧ n * (i / n + 1) ≤ i + n ∧
    (∀ k : Int, i < k * n → n * (i / n + 1) ≤ k * n) ∧
    (i % n = 0 → n * (i / n + 1) = i + n) := by
  have hn0 : n ≠ 0 := by omega
  have hdm := Int.emod_add_ediv i n
  have hr0 : 0 ≤ i % n := Int.emod_nonneg i hn0
  have hrn : i % n < n := Int.emod_lt_of_pos i hn
  have hmul : n * (i / n + 1) = n * (i / n) + n := by ring
  refine ⟨by omega, by omega, ?_, by omega⟩
  intro k hk
  have hcomm1 : n * (i / n) = i / n * n := by ring
  have hcomm2 : n * k = k * n := by ring
  have hmk : i / n < k := by
    have h2 : i / n * n < k * n := by omega
    exact lt_of_mul_lt_mul_right h2 (le_of_lt hn)
  have h3 : n * (i / n + 1) ≤ n * k :=
    mul_le_mul_of_nonneg_left (by omega) (le_of_lt hn)
  omega

/-- C5: for every date dt (epoch ms) and positive minute interval n,
__roundUpToNearestNMinutes discards seconds and milliseconds (the
result is a whole minute), lands a whole multiple of n minutes past
the start of the hour of dt, lies strictly after the minute
truncation of dt (never the identity), is the least such multiple
(the next one), and when the minutes field of dt is already on an n
minute boundary it advances by a full n minutes. -/
theorem C5_roundUp_next_multiple (dt n : Int) (hn : 0 < n) :
    __roundUpToNearestNMinutes dt n % msPerMinute = 0 ∧
    (__roundUpToNearestNMinutes dt n - hourStart dt) % (n * msPerMinute) = 0 ∧
    truncToMinute dt < __roundUpToNearestNMinutes dt n ∧
    (∀ k : Int, truncToMinute dt < hourStart dt + k * (n * msPerMinute) →
      __roundUpToNearestNMinutes dt n ≤ hourStart dt + k * (n * msPerMinute)) ∧
    (getUTCMinutes dt % n = 0 →
      __roundUpToNearestNMinutes dt n = truncToMinute dt + n * msPerMinute) := by
  have hf := roundUp_formula dt n hn
  have htr := truncToMinute_decomp dt
  obtain ⟨hb1, hb2, hb3, hb4⟩ := nextMultiple_bounds (getUTCMinutes dt) n hn
  refine ⟨?_, ?_, ?_, ?_, ?_⟩
  · rw [hf]
    rw [show hourStart dt + n * (getUTCMinutes dt / n + 1) * msPerMinute =
        msPerMinute * (60 * (dt / msPerHour) + n * (getUTCMinutes dt / n + 1)) by
      simp only [hourStart, msPerHour, msPerMinute]; ring]
    exact Int.mul_emod_right _ _
  · rw [hf]
    rw [show hourStart dt + n * (getUTCMinutes dt / n + 1) * msPerMinute - hourStart dt =
        n * msPerMinute * (getUTCMinutes dt / n + 1) by ring]
    exact Int.mul_emod_right _ _
  · rw [hf, htr]
    have hM : (0 : Int) < msPerMinute := by decide
    nlinarith
  · intro k hk
    rw [hf]
    rw [htr] at hk
    rw [show k * (n * msPerMinute) = k * n * msPerMinute by ring] at hk ⊢
    have hM : (0 : Int) < msPerMinute := by decide
    have hik : getUTCMinutes dt < k * n := by nlinarith
    have := hb3 k hik
    nlinarith
  · intro h0
    rw [hf, htr, hb4 h0]
    ring

/-- C5 witness: at the boundary instant 2021-01-01T00:05:00Z with a 5
minute interval, rounding strictly advances by a full 5 minutes. -/
theorem C5_roundUp_next_multiple_witness :
    __roundUpToNearestNMinutes 1609459500000 5 =
      truncToMinute 1609459500000 + 5 * msPerMinute :=
  (C5_roundUp_next_multiple 1609459500000 5 (by decide)).2.2.2.2 (by decide)

/-- C4: in realtime mode the resolved window is end = roundUp(now, 1
minute), start = end - 15 minutes, refresh delay 300000 ms; in
pastday mode end = roundUp(now, 5 minutes), start = end - 24 hours,
refresh delay 300000 ms; and in every mode the fetch request issued
for the resolved window carries seconds = true exactly when
end - start is at most 30 minutes. -/
theorem C4_window_resolution (c : Config) (now : Int) (s : AppState) :
    (c.timemode = "realtime" →
      resolveWindow c now =
        some { starttime := __roundUpToNearestNMinutes now 1 - 15 * 60000,
               endtime := __roundUpToNearestNMinutes now 1,
               autoUpdateTime := some 300000 }) ∧
    (c.timemode = "pastday" →
      resolveWindow c now =
        some { starttime := __roundUpToNearestNMinutes now 5 - 24 * 3600000,
               endtime := __roundUpToNearestNMinutes now 5,
               autoUpdateTime := some 300000 }) ∧
    (∀ w, resolveWindow c now = some w →
      ∀ p : Nat × FetchRequest,
        p ∈ (_onConfigChange { s with config := c } now).pending →
        p ∉ s.pending →
        (p.2.seconds = true ↔ w.endtime - w.starttime ≤ 30 * 60000)) := by
  refine ⟨?_, ?_, ?_⟩
  · intro h
    unfold resolveWindow
    rw [if_pos h]
    norm_num
  · intro h
    have hne : ¬ c.timemode = "realtime" := by
      rw [h]; decide
    unfold resolveWindow
    rw [if_neg hne, if_pos h]
    norm_num
  · intro w hw p hmem hnot
    simp only [_onConfigChange, hw, List.mem_append] at hmem
    rcases hmem with hmem | hmem
    · exact absurd hmem hnot
    · simp only [List.mem_singleton] at hmem
      subst hmem
      simp only [decide_eq_true_eq]
      norm_num

/-- C4 witness: concrete realtime cycle at now = 0. -/
theorem C4_window_resolution_witness :
    (resolveWindow realtimeConfig 0 =
      some { starttime := __roundUpToNearestNMinutes 0 1 - 15 * 60000,
             endtime := __roundUpToNearestNMinutes 0 1,
             autoUpdateTime := some 300000 }) ∧
    ((((0 : Nat),
        ({ channel := some "H", observatory := none, channels := none,
           starttime := -840000, endtime := 60000, seconds := true } :
          FetchRequest)) : Nat × FetchRequest).2.seconds = true ↔
      (60000 : Int) - -840000 ≤ 30 * 60000) := by
  constructor
  · exact (C4_window_resolution realtimeConfig 0 (startState realtimeConfig)).1 (by decide)
  · exact (C4_window_resolution realtimeConfig 0 (startState realtimeConfig)).2.2
      { starttime := -840000, endtime := 60000, autoUpdateTime := some 300000 }
      (by decide) _ (by decide) (by decide)

/-- C1 counterexample: on staleTrace a second configuration change
starts fetch 1 while fetch 0 is outstanding; fetch 1 completes and
publishes recordB; the stale completion of fetch 0 then arrives and
overwrites the published collection with recordA, so after the trace
the published set holds the records of the EARLIER cycle, not the
later one: the stale completion is not discarded. -/
theorem C1_counterexample :
    (runTrace (startState customConfigA) (List.take 3 staleTrace)).published =
      [recordB] ∧
    (runTrace (startState customConfigA) staleTrace).published = [recordA] ∧
    recordA ≠ recordB := by
  refine ⟨by decide, by decide, by decide⟩

/-- C1 amended: the load callback performs no staleness check (there
is no cycle token): the completion of ANY outstanding fetch, however
stale, replaces the published collection with its own processed
records. In particular a superseded fetch completing after a later
cycle has already published overwrites the later results. -/
theorem C1_no_stale_discard (s : AppState) (id : Nat)
    (records : List Timeseries)
    (h : (s.pending.map Prod.fst).contains id = true) :
    (step s (.fetchSuccess id records)).published =
      processResponse s.observatories records := by
  simp only [step, h, if_pos]

/-- C1 witness: the final stale completion of staleTrace. -/
theorem C1_no_stale_discard_witness :
    (step (runTrace (startState customConfigA) (List.take 3 staleTrace))
        (.fetchSuccess 0 [recordA])).published =
      processResponse
        (runTrace (startState customConfigA) (List.take 3 staleTrace)).observatories
        [recordA] :=
  C1_no_stale_discard _ 0 [recordA] (by decide)

/-- C2 counterexample: a realtime cycle arms the 300000 ms auto update
timeout when it issues its fetch; when that fetch then fails, loading
is cleared and the published set emptied, but the timeout is still
armed for the failed cycle, contradicting the claim that no auto
refresh timer is armed for a failed cycle in realtime mode. -/
theorem C2_counterexample :
    (runTrace (startState realtimeConfig)
        [.configChange realtimeConfig 0, .fetchFail 0]).loading = false ∧
    (runTrace (startState realtimeConfig)
        [.configChange realtimeConfig 0, .fetchFail 0]).published = [] ∧
    (runTrace (startState realtimeConfig)
        [.configChange realtimeConfig 0, .fetchFail 0]).timer = some 300000 := by
  refine ⟨by decide, by decide, by decide⟩

/-- C2 amended: when a fetch fails the error handler clears the
loading state and resets the published collection to empty, and
leaves the timer slot exactly as it was: for a custom cycle the cycle
armed no timer, so none is armed after the error, but for a realtime
or pastday cycle the auto update timeout armed when the cycle issued
its fetch (w.autoUpdateTime = some 300000) remains armed. -/
theorem C2_error_handling (s : AppState) (id : Nat)
    (h : (s.pending.map Prod.fst).contains id = true) :
    (step s (.fetchFail id)).loading = false ∧
    (step s (.fetchFail id)).published = [] ∧
    (step s (.fetchFail id)).timer = s.timer ∧
    (∀ c now w, resolveWindow c now = some w →
      (_onConfigChange { s with config := c } now).timer = w.autoUpdateTime) := by
  refine ⟨?_, ?_, ?_, ?_⟩
  · simp only [step, h, if_pos]
  · simp only [step, h, if_pos]
  · simp only [step, h, if_pos]
  · intro c now w hw
    simp only [_onConfigChange, hw]

/-- C2 witness: the failed realtime cycle of the counterexample. -/
theorem C2_error_handling_witness :
    (step (runTrace (startState realtimeConfig) [.configChange realtimeConfig 0])
        (.fetchFail 0)).published = [] ∧
    (_onConfigChange
        { runTrace (startState realtimeConfig) [.configChange realtimeConfig 0] with
            config := realtimeConfig } 0).timer =
      (Window.mk (-840000) 60000 (some 300000)).autoUpdateTime := by
  constructor
  · exact (C2_error_handling _ 0 (by decide)).2.1
  · exact (C2_error_handling
      (runTrace (startState realtimeConfig) [.configChange realtimeConfig 0]) 0
      (by decide)).2.2.2 realtimeConfig 0 _ (by decide)

/-- C3 counterexample: a custom submission with start = end (epoch 0)
passes the ordering check (the code rejects only start > end): the
error slot is cleared and the configuration is committed with
timemode custom, contradicting the claim that start = end reports the
ordering error and does not commit. -/
theorem C3_counterexample :
    (customTimeSubmit (.valid 0) (.valid 0) initialConfigDefaults).1 = none ∧
    (customTimeSubmit (.valid 0) (.valid 0) initialConfigDefaults).2.timemode =
      "custom" ∧
    (customTimeSubmit (.valid 0) (.valid 0) initialConfigDefaults).2 ≠
      initialConfigDefaults := by
  refine ⟨by decide, by decide, by decide⟩

/-- C3 amended: the ordering validator rejects exactly the pairs with
start strictly greater than end: for those the error is the ordering
message and the configuration is not committed (start and end are
never swapped); a pair with start = end passes the ordering check and
is committed unchanged with a cleared error. -/
theorem C3_order_validation (s e : Int) (c : Config) :
    (s > e → customTimeSubmit (.valid s) (.valid e) c = (some orderError, c)) ∧
    ((customTimeSubmit (.valid s) (.valid e) c).1 = some orderError ↔ s > e) ∧
    (customTimeSubmit (.valid s) (.valid s) c =
      (none, { c with
        endtime := some s, starttime := some s, timemode := "custom" })) := by
  refine ⟨?_, ⟨?_, ?_⟩, ?_⟩
  · intro h
    simp only [customTimeSubmit, if_pos h]
  · intro h
    by_cases hse : s > e
    · exact hse
    · exfalso
      simp only [customTimeSubmit, if_neg hse] at h
      by_cases hr : e - s > 2678400000
      · rw [if_pos hr] at h
        simp only [Option.some.injEq] at h
        exact absurd h (by decide)
      · rw [if_neg hr] at h
        exact Option.noConfusion h
  · intro h
    simp only [customTimeSubmit, if_pos h]
  · have h1 : ¬ s > s := lt_irrefl s
    have h2 : ¬ s - s > 2678400000 := by omega
    simp only [customTimeSubmit, if_neg h1, if_neg h2]

/-- C3 witness: a strictly reversed pair is rejected with the
ordering error and nothing is committed. -/
theorem C3_order_validation_witness :
    customTimeSubmit (.valid 1) (.valid 0) initialConfigDefaults =
      (some orderError, initialConfigDefaults) :=
  (C3_order_validation 1 0 initialConfigDefaults).1 (by decide)

/-- C7: for pairs that parse to valid timestamps the span validator
reports the range message exactly when end - start exceeds 2678400000
ms, and then nothing is committed; a span of exactly 2678400000 ms
passes the span check (and, the span being positive, the ordering
check too, so the window is committed with a cleared error). -/
theorem C7_span_validation (s e : Int) (c : Config) :
    ((customTimeSubmit (.valid s) (.valid e) c).1 = some rangeError ↔
      e - s > 2678400000) ∧
    (e - s > 2678400000 →
      customTimeSubmit (.valid s) (.valid e) c = (some rangeError, c)) ∧
    (e - s = 2678400000 →
      customTimeSubmit (.valid s) (.valid e) c =
        (none, { c with
          endtime := some e, starttime := some s, timemode := "custom" })) := by
  have hord : e - s > 2678400000 → ¬ s > e := by omega
  refine ⟨⟨?_, ?_⟩, ?_, ?_⟩
  · intro h
    by_cases hse : s > e
    · exfalso
      simp only [customTimeSubmit, if_pos hse, Option.some.injEq] at h
      exact absurd h (by decide)
    · by_cases hr : e - s > 2678400000
      · exact hr
      · exfalso
        simp only [customTimeSubmit, if_neg hse, if_neg hr] at h
        exact Option.noConfusion h
  · intro h
    simp only [customTimeSubmit, if_neg (hord h), if_pos h]
  · intro h
    simp only [customTimeSubmit, if_neg (hord h), if_pos h]
  · intro h
    have h1 : ¬ s > e := by omega
    have h2 : ¬ e - s > 2678400000 := by omega
    simp only [customTimeSubmit, if_neg h1, if_neg h2]

/-- C7 witness: a span one millisecond over the limit is rejected
with the range error; a span of exactly the limit is committed. -/
theorem C7_span_validation_witness :
    customTimeSubmit (.valid 0) (.valid 2678400001) initialConfigDefaults =
      (some rangeError, initialConfigDefaults) ∧
    customTimeSubmit (.valid 0) (.valid 2678400000) initialConfigDefaults =
      (none, { initialConfigDefaults with
        endtime := some 2678400000, starttime := some 0, timemode := "custom" }) := by
  constructor
  · exact (C7_span_validation 0 2678400001 initialConfigDefaults).2.1 (by decide)
  · exact (C7_span_validation 0 2678400000 initialConfigDefaults).2.2 (by decide)

/-- C6 counterexample: both records carry a defined latitude (0 and
40), so the claim requires descending latitude order, placing the
latitude 40 record first, which for the comparator on the pair
(latZeroRecord, latFortyRecord) means a positive value; but 0 is
falsy in JavaScript, the comparator falls back to the observatory
codes AAA and ZZZ and returns -1, ordering the latitude 0 record
first. -/
theorem C6_counterexample :
    latZeroRecord.metadata.latitude = some 0 ∧
    latFortyRecord.metadata.latitude = some 40 ∧
    timeseriesCompare latZeroRecord latFortyRecord = -1 ∧
    ¬ 0 < timeseriesCompare latZeroRecord latFortyRecord := by
  refine ⟨by decide, by decide, by decide, by decide⟩

/-- C6 amended: the comparator uses the latitude key only when both
latitudes are truthy in the JavaScript sense, that is present and
nonzero: then it returns bLat - aLat, negative (a first) exactly when
a has the higher latitude. In every other case, including a present
latitude equal to 0, it falls back to the ascending observatory code
comparison. -/
theorem C6_compare_rule (a b : Timeseries) :
    (∀ x y, a.metadata.latitude = some x → b.metadata.latitude = some y →
      x ≠ 0 → y ≠ 0 → timeseriesCompare a b = y - x) ∧
    (latTruthy a.metadata.latitude = false ∨ latTruthy b.metadata.latitude = false →
      timeseriesCompare a b =
        if jsStrLt a.metadata.observatory b.metadata.observatory then -1
        else if jsStrLt b.metadata.observatory a.metadata.observatory then 1
        else 0) := by
  constructor
  · intro x y hx hy hx0 hy0
    simp only [timeseriesCompare, hx, hy, latTruthy, Option.getD_some]
    rw [if_pos]
    simp only [bne_iff_ne, ne_eq, Bool.and_eq_true, decide_eq_true_eq]
    exact ⟨hx0, hy0⟩
  · intro h
    simp only [timeseriesCompare]
    rw [if_neg]
    rcases h with h | h <;> simp [h]

/-- C6 witness: two records with truthy latitudes 40 and 20 compare
by descending latitude. -/
theorem C6_compare_rule_witness :
    timeseriesCompare
      { channel := "H",
        metadata := { observatory := "BOU", name := none,
                      latitude := some 40, longitude := none } }
      { channel := "H",
        metadata := { observatory := "ARC", name := none,
                      latitude := some 20, longitude := none } } = 20 - 40 :=
  (C6_compare_rule _ _).1 40 20 rfl rfl (by decide) (by decide)

/-- C8: selecting a channel with a truthy id sets that channel and
clears the observatory to null; selecting an observatory sets it and
clears the channel; and any selection event (truthy or falsy id)
preserves the invariant that at most one of channel and observatory
is non null. -/
theorem C8_mutual_exclusivity (c : Config) (id : String) (h : id ≠ "") :
    ((_onChannelClick (some id) c).channel = some id ∧
     (_onChannelClick (some id) c).observatory = none) ∧
    ((_onObservatoryClick (some id) c).observatory = some id ∧
     (_onObservatoryClick (some id) c).channel = none) ∧
    (∀ x : Option String, c.channel = none ∨ c.observatory = none →
      ((_onChannelClick x c).channel = none ∨
        (_onChannelClick x c).observatory = none) ∧
      ((_onObservatoryClick x c).channel = none ∨
        (_onObservatoryClick x c).observatory = none)) := by
  refine ⟨?_, ?_, ?_⟩
  · simp only [_onChannelClick, if_pos h]
    exact ⟨trivial, trivial⟩
  · simp only [_onObservatoryClick, if_pos h]
    exact ⟨trivial, trivial⟩
  · intro x hmut
    constructor
    · match x with
      | none => exact hmut
      | some y =>
          by_cases hy : y ≠ ""
          · simp only [_onChannelClick, if_pos hy]
            exact Or.inr trivial
          · simp only [_onChannelClick, if_neg hy]
            exact hmut
    · match x with
      | none => exact hmut
      | some y =>
          by_cases hy : y ≠ ""
          · simp only [_onObservatoryClick, if_pos hy]
            exact Or.inl trivial
          · simp only [_onObservatoryClick, if_neg hy]
            exact hmut

/-- C8 witness: selecting channel E from the default configuration. -/
theorem C8_mutual_exclusivity_witness :
    (_onChannelClick (some "E") initialConfigDefaults).channel = some "E" ∧
    (_onChannelClick (some "E") initialConfigDefaults).observatory = none :=
  (C8_mutual_exclusivity initialConfigDefaults "E" (by decide)).1

/-- C9: switching the time mode writes only the timemode field:
selecting the realtime or pastday radio maps the configuration to
itself with only timemode replaced (channel, observatory, starttime
and endtime untouched) and leaves the error slot alone; selecting the
custom radio itself changes nothing at all; hence custom start and
end times survive a round trip custom to realtime and back. -/
theorem C9_mode_switch_frame (c : Config) (err : Option String) :
    (_onTimeChange realtimeRadioEvent err c =
      (err, { c with timemode := "realtime" })) ∧
    (_onTimeChange pastdayRadioEvent err c =
      (err, { c with timemode := "pastday" })) ∧
    (_onTimeChange customRadioEvent err c = (err, c)) ∧
    ((_onTimeChange customRadioEvent err
        (_onTimeChange realtimeRadioEvent err c).2).2.starttime = c.starttime ∧
     (_onTimeChange customRadioEvent err
        (_onTimeChange realtimeRadioEvent err c).2).2.endtime = c.endtime) :=
  ⟨rfl, rfl, rfl, rfl, rfl⟩

/-- C10: in every timemode other than realtime and pastday (including
the startup default pasthour, which takes the custom branch) the
window is read verbatim from the configured starttime and endtime,
resolution fails (the getTime call throws) exactly when either is
null, and in that case the cycle aborts having only cancelled the
timer: no loading state, no fetch, no new timer. The startup defaults
themselves hit this failing case. -/
theorem C10_custom_branch_null_safety (c : Config) (now : Int) (s : AppState)
    (h1 : c.timemode ≠ "realtime") (h2 : c.timemode ≠ "pastday") :
    (∀ st en, c.starttime = some st → c.endtime = some en →
      resolveWindow c now =
        some { starttime := st, endtime := en, autoUpdateTime := none }) ∧
    (resolveWindow c now = none ↔ c.starttime = none ∨ c.endtime = none) ∧
    (c.starttime = none ∨ c.endtime = none →
      _onConfigChange { s with config := c } now =
        { s with config := c, timer := none }) ∧
    (initialConfigDefaults.timemode = "pasthour" ∧
      resolveWindow initialConfigDefaults now = none) := by
  have hres : resolveWindow c now =
      match c.endtime, c.starttime with
      | some e, some st =>
          some { starttime := st, endtime := e, autoUpdateTime := none }
      | _, _ => none := by
    unfold resolveWindow
    rw [if_neg h1, if_neg h2]
  have hdef : resolveWindow initialConfigDefaults now = none := rfl
  refine ⟨?_, ?_, ?_, by decide, hdef⟩
  · intro st en hst hen
    rw [hres, hst, hen]
  · rw [hres]
    match hst : c.starttime, hen : c.endtime with
    | none, none => simp
    | none, some e => simp
    | some st, none => simp
    | some st, some e => simp
  · intro hnull
    have hnone : resolveWindow c now = none := by
      rw [hres]
      rcases hnull with h | h
      · rw [h]
        match c.endtime with
        | none => rfl
        | some e => rfl
      · rw [h]
    simp only [_onConfigChange, hnone]

/-- C10 witness: the startup defaults (timemode pasthour, both times
null) fail resolution, and a custom configuration with both times set
resolves to them verbatim. -/
theorem C10_custom_branch_null_safety_witness :
    resolveWindow customConfigA 0 =
      some { starttime := 0, endtime := 60000, autoUpdateTime := none } ∧
    resolveWindow initialConfigDefaults 0 = none := by
  constructor
  · exact (C10_custom_branch_null_safety customConfigA 0
      (startState customConfigA) (by decide) (by decide)).1 0 60000 rfl rfl
  · exact (C10_custom_branch_null_safety initialConfigDefaults 0
      (startState initialConfigDefaults) (by decide) (by decide)).2.1.mpr
      (Or.inl rfl)

end GeomagPlots
